import Mathlib

/-
Verification development for the employee database (src/employee_database.py).
The Python class EmployeeDatabase is shallowly embedded: its mutable attributes
become the structure DBState, the filesystem (primary database file and the
sibling ".bak" file) becomes the structure FS, and each method becomes a Lean
function threading state and filesystem explicitly.  Machine-level details that
no claim depends on (pickle byte layout, uuid values, date formatting of the
random generator) are modelled by faithful executable stand-ins, each documented
at its definition.
-/

namespace EmployeeDatabase

/-! ## String utilities (executable stand-ins for Python str methods) -/

/-- Python str.lower restricted to ASCII letters, which is all the code applies
it to after unidecode folding. -/
def lowerStr (s : String) : String := String.mk (s.toList.map Char.toLower)

/-- One splitting step list for Python str.split(sep) with a nonempty separator:
splits on each non-overlapping occurrence from the left, keeping empty pieces.
The fuel argument makes the recursion structural; fuel = length of the input
plus one always suffices because each step consumes at least one character. -/
def splitAux (sep : List Char) : Nat → List Char → List Char → List (List Char)
  | 0, cur, _ => [cur.reverse]
  | _ + 1, cur, [] => [cur.reverse]
  | fuel + 1, cur, c :: rest =>
      if sep.isPrefixOf (c :: rest) then
        cur.reverse :: splitAux sep fuel [] ((c :: rest).drop sep.length)
      else
        splitAux sep fuel (c :: cur) rest

/-- Python email.split(sep) for a nonempty separator (the code only ever splits
on a surname and on "@", both nonempty). -/
def pySplit (s sep : String) : List String :=
  (splitAux sep.toList (s.toList.length + 1) [] s.toList).map String.mk

/-- Python str.isdigit: nonempty and every character a decimal digit. -/
def isDigitStr (s : String) : Bool :=
  !s.toList.isEmpty && s.toList.all Char.isDigit

/-- Decimal value of a digit string, as computed by Python int on it. -/
def toNatDigits (l : List Char) : Nat :=
  l.foldl (fun a c => a * 10 + (c.toNat - 48)) 0

/-- Drop one leading sign character if present. -/
def stripSign (l : List Char) : List Char :=
  match l with
  | c :: rest => if c = '-' ∨ c = '+' then rest else l
  | [] => []

/-- Acceptance of Python int(value) on a string: an optional sign followed by a
nonempty run of decimal digits.  (Surrounding whitespace and underscore digit
grouping, which Python also accepts, are not modelled; no value in this
development contains them.) -/
def isIntStr (s : String) : Bool :=
  let t := stripSign s.toList
  !t.isEmpty && t.all Char.isDigit

/-- The integer produced by Python int(value) on an accepted string. -/
def parseIntStr (s : String) : Int :=
  match s.toList with
  | '-' :: rest => -(toNatDigits rest : Int)
  | '+' :: rest => (toNatDigits rest : Int)
  | l => (toNatDigits l : Int)

/-- Acceptance of Python float(value) on a string that int(value) rejected:
an optional sign, then digits with at most one decimal point and at least one
digit.  (Exponent, inf and nan spellings are not modelled; no claim reaches
them because every value the claims feed to the float branch is rejected
here exactly as a non-numeric string.) -/
def isFloatStr (s : String) : Bool :=
  let t := stripSign s.toList
  match splitAux ['.'] (t.length + 1) [] t with
  | [a, b] => (!a.isEmpty || !b.isEmpty) && a.all Char.isDigit && b.all Char.isDigit
  | [a] => !a.isEmpty && a.all Char.isDigit
  | _ => false

/-! ## ValueCoercion: _cast_str and comparison semantics -/

/-- The dynamic result type of _cast_str.  A float is carried as its source
text: no claim evaluates floating-point arithmetic, and floating point is kept
out of the provable statements. -/
inductive PyVal
  | int (n : Int)
  | float (s : String)
  | bool (b : Bool)
  | str (s : String)
deriving DecidableEq

/-- _cast_str: try int, then float, then case-insensitive true/false, else the
original string. -/
def cast_str (value : String) : PyVal :=
  if isIntStr value then .int (parseIntStr value)
  else if isFloatStr value then .float value
  else if lowerStr value = "true" ∨ lowerStr value = "false" then
    .bool (lowerStr value = "true")
  else .str value

/-- The six comparison operators accepted by get_by_field. -/
inductive CmpOp
  | eq | ne | lt | le | gt | ge
deriving DecidableEq

/-- The operators dictionary of get_by_field, as a lookup from operator text. -/
def opOfString (s : String) : Option CmpOp :=
  if s = "==" then some .eq
  else if s = "!=" then some .ne
  else if s = "<" then some .lt
  else if s = "<=" then some .le
  else if s = ">" then some .gt
  else if s = ">=" then some .ge
  else none

/-- Evaluate a comparison operator on two integers (Python int semantics). -/
def evalOpInt (op : CmpOp) (x y : Int) : Bool :=
  match op with
  | .eq => x == y
  | .ne => !(x == y)
  | .lt => decide (x < y)
  | .le => decide (x ≤ y)
  | .gt => decide (y < x)
  | .ge => decide (y ≤ x)

/-- Turn an Ordering into the answer for one comparison operator. -/
def ordToBool (op : CmpOp) (o : Ordering) : Bool :=
  match op, o with
  | .eq, .eq => true
  | .eq, _ => false
  | .ne, .eq => false
  | .ne, _ => true
  | .lt, .lt => true
  | .lt, _ => false
  | .le, .gt => false
  | .le, _ => true
  | .gt, .gt => true
  | .gt, _ => false
  | .ge, .lt => false
  | .ge, _ => true

/-- Evaluate a comparison operator on two strings (lexicographic, as Python
compares str values). -/
def evalOpStr (op : CmpOp) (x y : String) : Bool := ordToBool op (compare x y)

/-- Numeric view of a PyVal: Python bool is a subtype of int, so booleans
compare as 1 and 0.  (Parsed floats are excluded: floating point is not
modelled.) -/
def toNum : PyVal → Option Int
  | .int n => some n
  | .bool b => some (if b then 1 else 0)
  | _ => none

/-- Comparison of two coerced values under Python semantics: numeric values
compare numerically, strings lexicographically; an ordering comparison between
unrelated types raises TypeError, modelled as none.  Equality between unrelated
types is False in Python, modelled as some false.  Comparisons that would
require evaluating a parsed float are left as none: floating point is not
modelled, and no claim reaches them. -/
def pyCompare (op : CmpOp) (a b : PyVal) : Option Bool :=
  match toNum a, toNum b with
  | some x, some y => some (evalOpInt op x y)
  | _, _ =>
    match a, b with
    | .str x, .str y => some (evalOpStr op x y)
    | .float x, .float y =>
        match op with
        | .eq => some (x == y)
        | .ne => some (!(x == y))
        | _ => none
    | _, _ =>
        match op with
        | .eq => some false
        | .ne => some true
        | _ => none

/-! ## normalize_string and its unidecode collaborator -/

/-- Models the unidecode library ASCII transliteration, restricted to the
characters this development uses: ASCII characters map to themselves and
accented Latin letters map to their unaccented base letter, exactly as the
library transliterates them. -/
def unidecodeChar (c : Char) : String :=
  if c.toNat < 128 then String.mk [c]
  else if c ∈ ['á', 'à', 'â', 'ä', 'ã'] then "a"
  else if c ∈ ['é', 'è', 'ê', 'ë'] then "e"
  else if c ∈ ['í', 'ì', 'î', 'ï'] then "i"
  else if c ∈ ['ó', 'ò', 'ô', 'ö', 'õ'] then "o"
  else if c ∈ ['ú', 'ù', 'û', 'ü'] then "u"
  else if c = 'ñ' then "n"
  else if c = 'ç' then "c"
  else ""

/-- unidecode applied to a whole string. -/
def unidecode (s : String) : String :=
  String.join (s.toList.map unidecodeChar)

/-- normalize_string: ASCII-fold with unidecode, lowercase, then keep only the
characters a-z (the re.sub with pattern excluding a-z). -/
def normalize_string (s : String) : String :=
  let ascii_filtered := lowerStr (unidecode s)
  String.mk (ascii_filtered.toList.filter (fun c => 'a' ≤ c && c ≤ 'z'))

/-! ## Data model -/

/-- A record (employee) is a Python dict from field name to field value,
modelled as an insertion-ordered association list.  The id field value is the
textual form of the identifier (identifiers themselves are modelled as Nat,
standing in for uuid values). -/
abbrev Employee := List (String × String)

/-- Python employee.get(field): the value stored under a field name, if any. -/
def lookupField (e : Employee) (k : String) : Option String :=
  (e.find? (fun p => p.1 == k)).map (fun p => p.2)

/-- Python employee[field] where the caller has ensured the key is present;
every record built by the factory carries all seven keys, so the default is
never reached on the inputs of this development. -/
def getF (e : Employee) (k : String) : String := (lookupField e k).getD ""

/-- A calendar date.  The code serializes dates with strftime "%Y-%m-%d" and
parses them back with strptime of the same format; these are mutually inverse
on date-only values, so the serialized creation_date is modelled by the date
value itself. -/
structure Date where
  year : Nat
  month : Nat
  day : Nat
deriving DecidableEq

/-- The metadata dict produced by generate_metadata and stored in the pickled
file. -/
structure Metadata where
  company_name : String
  email_suffix : String
  creation_date : Date
  max_employees : Nat
  total_employees : Nat
deriving DecidableEq

/-- The mutable attributes of an EmployeeDatabase instance (the file path is a
fixed ambient constant and is not part of the state). -/
structure DBState where
  company_name : String
  email_suffix : String
  creation_date : Date
  max_employees : Nat
  employees : List (Nat × Employee)
deriving DecidableEq

/-- generate_metadata: all descriptor fields from the current state, with
total_employees always recomputed as the current record count. -/
def generate_metadata (st : DBState) : Metadata :=
  ⟨st.company_name, st.email_suffix, st.creation_date, st.max_employees,
   st.employees.length⟩

/-! ## Filesystem model -/

/-- The observable content of a database file for the load protocol:
a pickle of a dict holding both required keys (valid), a pickle that decodes
but is missing a required key (badFormat, the ValueError path; other structural
defects caught by the generic except clause behave identically), bytes on which
pickle raises EOFError or UnpicklingError (corrupt), or a zero-length file
(empty). -/
inductive FileContent
  | valid (md : Metadata) (employees : List (Nat × Employee))
  | badFormat
  | corrupt
  | empty
deriving DecidableEq

/-- The filesystem as seen by the code: the primary file at FILE_PATH and the
backup file at FILE_PATH + ".bak"; none means the file does not exist. -/
structure FS where
  primary : Option FileContent
  backup : Option FileContent
deriving DecidableEq

/-- The state produced by the successful-parse branch of _load_data: every
attribute is assigned from the document, so the prior state does not appear
(metadata total_employees is never read). -/
def stateOfSnapshot (md : Metadata) (emps : List (Nat × Employee)) : DBState :=
  ⟨md.company_name, md.email_suffix, md.creation_date, md.max_employees, emps⟩

/-- The document written by _update_file (and by the fallback initialization of
_load_data with an empty record set): metadata regenerated from the state plus
the full records mapping. -/
def serializeState (st : DBState) : FileContent :=
  .valid (generate_metadata st) st.employees

/-- The fallback initialization at the end of _load_data: write a fresh
document (regenerated metadata, empty records) over the primary file.  Note the
code does not assign self.employees there, so the in-memory state is untouched;
the write itself is assumed to succeed, as the code does not guard it. -/
def reinitialize (st : DBState) (fs : FS) : FS :=
  { fs with primary := some (.valid (generate_metadata st) []) }

/-- Result of one _load_data call: the state and filesystem after it, whether
it terminated by raising (the RecursionError produced once the recursion budget
is exhausted, modelled by fuel 0), and how many backup-restore cycles (copy of
the backup over the primary followed by a retried load) it performed. -/
structure LoadOut where
  st : DBState
  fs : FS
  raised : Bool
  restores : Nat
deriving DecidableEq

/-- _load_data.  Steps, in source order: copy the primary over the backup when
the primary exists; if the primary exists and is nonempty, parse it — on
success assign every attribute from the document and return; on EOFError or
UnpicklingError call restore_from_backup (inlined here because the two
functions are mutually recursive in the source: the restore copies the backup
over the primary, re-invokes load, catches every exception from it — including
the eventual RecursionError — and reports success or failure); on ValueError or
any other exception fall through; in every fall-through case reinitialize a
fresh empty document.  After the unconditional backup copy the backup always
equals the corrupt primary in the restore branch, which is why the inlined
restore sees a corrupt backup.  The fuel argument is the remaining recursion
budget; fuel 0 models the call raising RecursionError on entry. -/
def load_data : Nat → DBState → FS → LoadOut
  | 0, st, fs => ⟨st, fs, true, 0⟩
  | fuel + 1, st, fs =>
    match fs.primary with
    | none => ⟨st, reinitialize st fs, false, 0⟩
    | some c =>
      let fs1 : FS := ⟨some c, some c⟩
      match c with
      | .valid md emps => ⟨stateOfSnapshot md emps, fs1, false, 0⟩
      | .empty => ⟨st, reinitialize st fs1, false, 0⟩
      | .badFormat => ⟨st, reinitialize st fs1, false, 0⟩
      | .corrupt =>
          let r := load_data fuel st ⟨some .corrupt, some .corrupt⟩
          if r.raised then ⟨r.st, reinitialize r.st r.fs, false, r.restores + 1⟩
          else ⟨r.st, r.fs, false, r.restores + 1⟩

/-- Result of restore_from_backup: whether it returned True, plus the state,
filesystem and restore count after it. -/
structure RestoreOut where
  ok : Bool
  st : DBState
  fs : FS
  restores : Nat
deriving DecidableEq

/-- restore_from_backup as a standalone function (the body that load_data
inlines): if the backup exists, copy it over the primary and re-invoke
load_data, catching any exception from it; report False when no backup exists
or the reload raised. -/
def restore_from_backup (fuel : Nat) (st : DBState) (fs : FS) : RestoreOut :=
  match fs.backup with
  | none => ⟨false, st, fs, 0⟩
  | some b =>
      let r := load_data fuel st ⟨some b, fs.backup⟩
      ⟨!r.raised, r.st, r.fs, r.restores + 1⟩

/-- _update_file: serialize the current state over the primary file.  The
writeOk parameter is the environment deciding whether the write succeeds; a
failed write reports False and is modelled as leaving the previous file content
intact (the save contract treats the platform write as all-or-nothing). -/
def update_file (writeOk : Bool) (st : DBState) (fs : FS) : Bool × FS :=
  if writeOk then (true, { fs with primary := some (serializeState st) })
  else (false, fs)

/-- Result of one mutating operation: the boolean the method returns, plus the
state and filesystem after it. -/
structure OpOut where
  ok : Bool
  st : DBState
  fs : FS
deriving DecidableEq

/-- The shared tail of every mutating operation: call _update_file on the
already-mutated state; on success return True, on failure call _load_data to
resynchronize the in-memory state with the file and return False. -/
def saveOrReload (writeOk : Bool) (fuel : Nat) (st1 : DBState) (fs : FS) : OpOut :=
  let res := update_file writeOk st1 fs
  if res.1 then ⟨true, st1, res.2⟩
  else
    let r := load_data fuel st1 res.2
    ⟨false, r.st, r.fs⟩

/-! ## RecordFactory: _generate_random_employee_data -/

/-- The externally supplied randomness of _generate_random_employee_data: the
generated first and last name, the department in [1,10], the salary in
[10000,20000] and the birth date. -/
structure GenInputs where
  name : String
  surname : String
  department : Nat
  salary : Nat
  birthDate : Date
deriving DecidableEq

/-- Left-pad a decimal numeral with zeros to the given width. -/
def padNum (width n : Nat) : String :=
  let s := toString n
  String.mk (List.replicate (width - s.length) '0') ++ s

/-- strftime "%Y-%m-%d". -/
def formatDate (d : Date) : String :=
  padNum 4 d.year ++ "-" ++ padNum 2 d.month ++ "-" ++ padNum 2 d.day

/-- The numeric-suffix candidate the code extracts from one existing email:
email.split(surname)[-1].split("@")[0].  Note the split uses the surname
exactly as generated (capitalized), while stored emails are lower-cased. -/
def suffixPart (email surname : String) : String :=
  (pySplit ((pySplit email surname).getLastD "") "@").headD ""

/-- The email derivation of _generate_random_employee_data: collect the emails
of records whose first and last name match case-insensitively; if none, use
name.surname@suffix.com; otherwise extract the digit-only suffix candidates,
take their maximum (0 when none) and append that plus one after the surname. -/
def deriveEmail (emailSuffix : String) (employees : List (Nat × Employee))
    (name surname : String) : String :=
  let existingEmails :=
    (employees.filter (fun p =>
        lowerStr (getF p.2 "nombre") == lowerStr name &&
        lowerStr (getF p.2 "apellido") == lowerStr surname)).map
      (fun p => getF p.2 "email")
  if existingEmails.isEmpty then
    name ++ "." ++ surname ++ "@" ++ emailSuffix ++ ".com"
  else
    let existingSuffixes :=
      (existingEmails.filter (fun email => isDigitStr (suffixPart email surname))).map
        (fun email => toNatDigits (suffixPart email surname).toList)
    let highest := existingSuffixes.foldl max 0
    name ++ "." ++ surname ++ toString (highest + 1) ++ "@" ++ emailSuffix ++ ".com"

/-- _generate_random_employee_data: returns the empty dict when the id already
exists, otherwise the seven-field record; the salary is formatted to two
decimal places and the email is stored lower-cased. -/
def generate_random_employee_data (st : DBState) (id : Nat) (g : GenInputs) :
    Employee :=
  if st.employees.any (fun p => p.1 == id) then []
  else
    let email := deriveEmail st.email_suffix st.employees g.name g.surname
    [("id", toString id),
     ("nombre", g.name),
     ("apellido", g.surname),
     ("departamento", toString g.department),
     ("sueldo", toString g.salary ++ ".00"),
     ("fecha", formatDate g.birthDate),
     ("email", lowerStr email)]

/-! ## RecordStore: the mutating operations -/

/-- Python dict assignment d[k] = v: replace in place when the key exists,
append otherwise. -/
def dictInsert (l : List (Nat × Employee)) (k : Nat) (v : Employee) :
    List (Nat × Employee) :=
  if l.any (fun p => p.1 == k) then
    l.map (fun p => if p.1 == k then (k, v) else p)
  else l ++ [(k, v)]

/-- Python dict lookup d.get(k). -/
def dictLookup (l : List (Nat × Employee)) (k : Nat) : Option Employee :=
  (l.find? (fun p => p.1 == k)).map (fun p => p.2)

/-- Python dict assignment to a key known to be present. -/
def dictSet (l : List (Nat × Employee)) (k : Nat) (v : Employee) :
    List (Nat × Employee) :=
  l.map (fun p => if p.1 == k then (k, v) else p)

/-- Assignment employee[field] = value for a field known to be present. -/
def setField (e : Employee) (fname v : String) : Employee :=
  e.map (fun p => if p.1 == fname then (fname, v) else p)

/-- add_employee_with_random_data: fail when the record count has reached
MAX_EMPLOYEES; otherwise insert the generated record into the in-memory map,
then save, reloading from the file on save failure.  The fresh uuid and the
random field values are the id and g parameters. -/
def add_employee_with_random_data (writeOk : Bool) (fuel id : Nat)
    (g : GenInputs) (st : DBState) (fs : FS) : OpOut :=
  if st.max_employees ≤ st.employees.length then ⟨false, st, fs⟩
  else
    let emp := generate_random_employee_data st id g
    let st1 := { st with employees := dictInsert st.employees id emp }
    saveOrReload writeOk fuel st1 fs

/-- remove_employee: fail when the store is empty or the id is absent;
otherwise delete the record, save, and reload from the file on save failure. -/
def remove_employee (writeOk : Bool) (fuel id : Nat) (st : DBState) (fs : FS) :
    OpOut :=
  if st.employees.length = 0 then ⟨false, st, fs⟩
  else if st.employees.any (fun p => p.1 == id) then
    let st1 := { st with employees := st.employees.filter (fun p => !(p.1 == id)) }
    saveOrReload writeOk fuel st1 fs
  else ⟨false, st, fs⟩

/-- reset_employees: clear the in-memory map, save, and reload from the file
on save failure. -/
def reset_employees (writeOk : Bool) (fuel : Nat) (st : DBState) (fs : FS) :
    OpOut :=
  saveOrReload writeOk fuel { st with employees := [] } fs

/-- The read_only_fields property: fecha is the birth-date field and the three
entries are exactly id, birth date and email. -/
def read_only_fields : List String := ["id", "fecha", "email"]

/-- modify_employee_field: fail on a read-only field, an unknown id, or a field
name absent from the record; otherwise set the value as given, save, and reload
from the file on save failure. -/
def modify_employee_field (writeOk : Bool) (fuel id : Nat) (fname fvalue : String)
    (st : DBState) (fs : FS) : OpOut :=
  if fname ∈ read_only_fields then ⟨false, st, fs⟩
  else
    match dictLookup st.employees id with
    | some e =>
        if (lookupField e fname).isSome then
          let st1 :=
            { st with employees := dictSet st.employees id (setField e fname fvalue) }
          saveOrReload writeOk fuel st1 fs
        else ⟨false, st, fs⟩
    | none => ⟨false, st, fs⟩

/-- The four mutating operations, as one indexed family for statements that
quantify over every mutating call. -/
inductive MutOp
  | add (id : Nat) (g : GenInputs)
  | remove (id : Nat)
  | modify (id : Nat) (fname fvalue : String)
  | reset
deriving DecidableEq

/-- Dispatch one mutating operation. -/
def runOp (op : MutOp) (writeOk : Bool) (fuel : Nat) (st : DBState) (fs : FS) :
    OpOut :=
  match op with
  | .add id g => add_employee_with_random_data writeOk fuel id g st fs
  | .remove id => remove_employee writeOk fuel id st fs
  | .modify id fname fvalue => modify_employee_field writeOk fuel id fname fvalue st fs
  | .reset => reset_employees writeOk fuel st fs

/-! ## get_by_field -/

/-- The two exceptions the dict comprehension of get_by_field can raise for a
single record: a KeyError from employee[field_name] when the record lacks the
field, or a TypeError from an ordering comparison between incompatible coerced
types. -/
inductive QueryErr
  | keyError
  | typeError
deriving DecidableEq

/-- The dict comprehension of get_by_field, evaluated left to right: for each
record, index the field (KeyError when absent), coerce the stored value and
compare it with the coerced query value (TypeError when the comparison is
undefined), and keep the record when the comparison holds.  The first failing
record aborts the whole query. -/
def queryFilter (op : CmpOp) (fieldName : String) (cv : PyVal) :
    List (Nat × Employee) → Except QueryErr (List (Nat × Employee))
  | [] => .ok []
  | p :: rest =>
      match lookupField p.2 fieldName with
      | none => .error .keyError
      | some v =>
          match pyCompare op (cast_str v) cv with
          | none => .error .typeError
          | some b =>
              match queryFilter op fieldName cv rest with
              | .error e => .error e
              | .ok r => .ok (if b then p :: r else r)

/-- get_by_field: an unknown operator or a field present in no record yields
the empty dict; otherwise the comprehension runs, and any exception it raises
propagates uncaught out of the query. -/
def get_by_field (employees : List (Nat × Employee))
    (fieldName operator_ fieldValue : String) :
    Except QueryErr (List (Nat × Employee)) :=
  match opOfString operator_ with
  | none => .ok []
  | some op =>
      if employees.any (fun p => (lookupField p.2 fieldName).isSome) then
        queryFilter op fieldName (cast_str fieldValue) employees
      else .ok []

/-! ## Concrete fixtures used by witnesses and counterexamples -/

/-- A metadata value for a one-record database. -/
def md₁ : Metadata := ⟨"Acme", "acme", ⟨2024, 1, 1⟩, 9999, 1⟩

/-- A well-formed record as produced by the factory. -/
def emp₁ : Employee :=
  [("id", "1"), ("nombre", "Jane"), ("apellido", "Doe"), ("departamento", "5"),
   ("sueldo", "12000.00"), ("fecha", "1990-01-01"), ("email", "jane.doe@acme.com")]

/-- A second record with the same first and last name, carrying the suffixed
email the factory produces for the second Jane Doe. -/
def emp₂ : Employee :=
  [("id", "2"), ("nombre", "Jane"), ("apellido", "Doe"), ("departamento", "7"),
   ("sueldo", "15000.00"), ("fecha", "1991-02-02"), ("email", "jane.doe1@acme.com")]

/-- The state of a freshly constructed instance before any load (defaults from
the constructor, empty record map). -/
def st₀ : DBState := ⟨"Company Name", "companyname", ⟨2025, 1, 1⟩, 9999, []⟩

/-- A state at capacity: maximum one employee and one record present. -/
def stCap : DBState := ⟨"Acme", "acme", ⟨2024, 1, 1⟩, 1, [(1, emp₁)]⟩

/-- A store holding two records that both carry the name Jane Doe. -/
def st₆ : DBState := ⟨"Acme", "acme", ⟨2024, 1, 1⟩, 9999, [(1, emp₁), (2, emp₂)]⟩

/-- A filesystem whose primary file holds a valid one-record snapshot. -/
def fsG : FS := ⟨some (.valid md₁ [(1, emp₁)]), none⟩

/-- Generator randomness producing a third Jane Doe. -/
def g₁ : GenInputs := ⟨"Jane", "Doe", 5, 12000, ⟨1990, 1, 1⟩⟩

/-! ## Helper lemmas -/

/-- Loading a valid primary file succeeds immediately: the backup is first
overwritten with the primary, then every attribute is assigned from the
document. -/
lemma load_data_valid (f : Nat) (st : DBState) (md : Metadata)
    (emps : List (Nat × Employee)) (b : Option FileContent) :
    load_data (f + 1) st ⟨some (.valid md emps), b⟩ =
      ⟨stateOfSnapshot md emps, ⟨some (.valid md emps), some (.valid md emps)⟩,
       false, 0⟩ := rfl

/-- Loading a corrupt primary file, whatever the backup held beforehand, first
overwrites the backup with the corrupt primary, then cycles through restore and
reload once per unit of remaining recursion budget, and finally reinitializes a
fresh empty document; the in-memory state is returned unchanged. -/
lemma load_data_corrupt (f : Nat) (st : DBState) (b : Option FileContent) :
    load_data (f + 1) st ⟨some .corrupt, b⟩ =
      ⟨st, ⟨some (.valid (generate_metadata st) []), some .corrupt⟩, false, f + 1⟩ := by
  have step : ∀ (m : Nat) (b' : Option FileContent),
      load_data (m + 1) st ⟨some .corrupt, b'⟩ =
        (let r := load_data m st ⟨some .corrupt, some .corrupt⟩
         if r.raised then ⟨r.st, reinitialize r.st r.fs, false, r.restores + 1⟩
         else ⟨r.st, r.fs, false, r.restores + 1⟩) :=
    fun m b' => rfl
  induction f generalizing b with
  | zero => rfl
  | succ n ih =>
      rw [step (n + 1) b, ih (some .corrupt)]
      rfl

/-- A successful save overwrites the primary file with the serialized mutated
state and reports True. -/
lemma saveOrReload_success (fuel : Nat) (st1 : DBState) (fs : FS) :
    saveOrReload true fuel st1 fs =
      ⟨true, st1, ⟨some (serializeState st1), fs.backup⟩⟩ := rfl

/-- A failed save leaves the file untouched and triggers the reload: the whole
in-memory state is replaced by the snapshot still on disk. -/
lemma saveOrReload_failure (f : Nat) (st1 : DBState) (fs : FS) (md : Metadata)
    (emps : List (Nat × Employee)) (h : fs.primary = some (.valid md emps)) :
    saveOrReload false (f + 1) st1 fs =
      ⟨false, stateOfSnapshot md emps,
       ⟨some (.valid md emps), some (.valid md emps)⟩⟩ := by
  rcases fs with ⟨p, bk⟩
  cases h
  rfl

/-- Every mutating operation either returns early with everything unchanged or
reaches the shared save-or-reload tail on its mutated state. -/
lemma runOp_shape (op : MutOp) (writeOk : Bool) (fuel : Nat) (st : DBState)
    (fs : FS) :
    runOp op writeOk fuel st fs = ⟨false, st, fs⟩ ∨
    ∃ st1, runOp op writeOk fuel st fs = saveOrReload writeOk fuel st1 fs := by
  cases op with
  | add id g =>
      simp only [runOp]
      unfold add_employee_with_random_data
      split
      · exact Or.inl rfl
      · exact Or.inr ⟨_, rfl⟩
  | remove id =>
      simp only [runOp]
      unfold remove_employee
      split
      · exact Or.inl rfl
      · split
        · exact Or.inr ⟨_, rfl⟩
        · exact Or.inl rfl
  | modify id fname fvalue =>
      simp only [runOp]
      unfold modify_employee_field
      split
      · exact Or.inl rfl
      · split
        · split
          · exact Or.inr ⟨_, rfl⟩
          · exact Or.inl rfl
        · exact Or.inl rfl
  | reset => exact Or.inr ⟨_, rfl⟩

/-- A dict assignment grows the map by at most one entry. -/
lemma dictInsert_length (l : List (Nat × Employee)) (k : Nat) (v : Employee) :
    (dictInsert l k v).length ≤ l.length + 1 := by
  unfold dictInsert
  split
  · simp
  · simp

/-- A string accepted by the integer parse coerces to its integer, never
falling through to the float branch. -/
lemma cast_str_int (s : String) (h : isIntStr s = true) :
    cast_str s = .int (parseIntStr s) := by
  simp [cast_str, h]

/-- When every record carries the queried field with an integer-string value
the comprehension succeeds and keeps exactly the records whose coerced value
satisfies the comparison. -/
lemma queryFilter_all_int (op : CmpOp) (fn : String) (n : Int) :
    ∀ l : List (Nat × Employee),
      (∀ p ∈ l, ∃ d, lookupField p.2 fn = some d ∧ isIntStr d = true) →
      queryFilter op fn (.int n) l =
        .ok (l.filter fun p =>
          match lookupField p.2 fn with
          | some d => evalOpInt op (parseIntStr d) n
          | none => false) := by
  intro l
  induction l with
  | nil => intro _; rfl
  | cons p rest ih =>
      intro h
      obtain ⟨d, hd, hint⟩ := h p (List.mem_cons_self p rest)
      have hrest := ih (fun q hq => h q (List.mem_cons_of_mem p hq))
      simp only [queryFilter, hd, cast_str_int d hint, pyCompare, toNum, hrest,
        List.filter_cons]

/-- If some record lacks the queried field, the comprehension raises. -/
lemma queryFilter_missing (op : CmpOp) (fn : String) (cv : PyVal) :
    ∀ l : List (Nat × Employee), (∃ p ∈ l, lookupField p.2 fn = none) →
      ∃ e, queryFilter op fn cv l = .error e := by
  intro l
  induction l with
  | nil =>
      rintro ⟨p, hp, _⟩
      exact absurd hp (List.not_mem_nil p)
  | cons p rest ih =>
      rintro ⟨q, hq, hnone⟩
      cases hl : lookupField p.2 fn with
      | none => exact ⟨.keyError, by simp [queryFilter, hl]⟩
      | some v =>
          cases hc : pyCompare op (cast_str v) cv with
          | none => exact ⟨.typeError, by simp [queryFilter, hl, hc]⟩
          | some b =>
              have hq' : q ∈ rest := by
                rcases List.mem_cons.mp hq with rfl | h
                · rw [hl] at hnone; cases hnone
                · exact h
              obtain ⟨e, he⟩ := ih ⟨q, hq', hnone⟩
              exact ⟨e, by simp [queryFilter, hl, hc, he]⟩

/-- If some record lacks the queried field while every record that does carry
it holds an integer string, and an integer query value is used, the raised
exception is precisely the lookup error. -/
lemma queryFilter_missing_int (op : CmpOp) (fn : String) (n : Int) :
    ∀ l : List (Nat × Employee), (∃ p ∈ l, lookupField p.2 fn = none) →
      (∀ p ∈ l, ∀ d, lookupField p.2 fn = some d → isIntStr d = true) →
      queryFilter op fn (.int n) l = .error .keyError := by
  intro l
  induction l with
  | nil =>
      rintro ⟨p, hp, _⟩
      exact absurd hp (List.not_mem_nil p)
  | cons p rest ih =>
      rintro ⟨q, hq, hnone⟩ hall
      cases hl : lookupField p.2 fn with
      | none => simp [queryFilter, hl]
      | some v =>
          have hint := hall p (List.mem_cons_self p rest) v hl
          have hq' : q ∈ rest := by
            rcases List.mem_cons.mp hq with rfl | h
            · rw [hl] at hnone; cases hnone
            · exact h
          have hrest := ih ⟨q, hq', hnone⟩
            (fun r hr => hall r (List.mem_cons_of_mem p hr))
          simp [queryFilter, hl, cast_str_int v hint, pyCompare, toNum, hrest]

/-! ## Claim theorems -/

/-- C1: the claim says a load over a corrupted primary file with a valid
backup returns the snapshot stored in the backup.  The code instead first
copies the corrupted primary over the backup, so the restore cycle restores the
corrupted bytes and recurses until the recursion budget runs out, after which a
fresh empty database is written: for every recursion budget the result is the
unchanged constructor state with an empty record map and a freshly initialized
primary file, never the backup snapshot — and the backup file itself now holds
the corrupted bytes. -/
theorem load_with_valid_backup_not_recovered (f : Nat) :
    load_data (f + 1) st₀ ⟨some .corrupt, some (.valid md₁ [(1, emp₁)])⟩ =
      ⟨st₀, ⟨some (.valid (generate_metadata st₀) []), some .corrupt⟩, false, f + 1⟩
    ∧ (load_data (f + 1) st₀
        ⟨some .corrupt, some (.valid md₁ [(1, emp₁)])⟩).st.employees ≠ [(1, emp₁)] := by
  refine ⟨load_data_corrupt f st₀ _, ?_⟩
  rw [load_data_corrupt f st₀ (some (.valid md₁ [(1, emp₁)]))]
  show st₀.employees ≠ [(1, emp₁)]
  decide

/-- C3: the claim says load performs at most a single backup-restore cycle on
decode failure.  In the code each retried load re-enters the restore, so the
number of restore cycles equals the whole remaining recursion budget: with
budget f + 2 the load of a corrupt primary performs f + 2 restore cycles,
always more than one. -/
theorem load_restore_cycles_unbounded (f : Nat) :
    (load_data (f + 2) st₀ ⟨some .corrupt, some .corrupt⟩).restores = f + 2 ∧
    1 < (load_data (f + 2) st₀ ⟨some .corrupt, some .corrupt⟩).restores := by
  have h : load_data ((f + 1) + 1) st₀ ⟨some .corrupt, some .corrupt⟩ =
      ⟨st₀, ⟨some (.valid (generate_metadata st₀) []), some .corrupt⟩, false,
       (f + 1) + 1⟩ := load_data_corrupt (f + 1) st₀ (some .corrupt)
  rw [show f + 2 = (f + 1) + 1 from rfl, h]
  refine ⟨rfl, ?_⟩
  show 1 < (f + 1) + 1
  omega

/-- C2: every mutating operation (add, remove, modify, reset) is transactional
at single-operation granularity.  When the save fails, the operation reports
False and the whole in-memory state is the reloaded last-known-good on-disk
snapshot (unless the operation already failed its own precondition, in which
case nothing changed at all); when the save succeeds with result True, the
primary file holds exactly the serialization of the resulting in-memory
state. -/
theorem mutating_ops_transactional (op : MutOp) (f : Nat) (st : DBState)
    (fs : FS) (md : Metadata) (emps : List (Nat × Employee))
    (hfs : fs.primary = some (.valid md emps)) :
    ((runOp op false (f + 1) st fs).ok = false ∧
      ((runOp op false (f + 1) st fs).st = st ∧
          (runOp op false (f + 1) st fs).fs = fs ∨
        (runOp op false (f + 1) st fs).st = stateOfSnapshot md emps ∧
          (runOp op false (f + 1) st fs).fs =
            ⟨some (.valid md emps), some (.valid md emps)⟩))
    ∧ ((runOp op true (f + 1) st fs).ok = true →
        (runOp op true (f + 1) st fs).fs.primary =
          some (.valid (generate_metadata (runOp op true (f + 1) st fs).st)
            (runOp op true (f + 1) st fs).st.employees))
    ∧ ((runOp op true (f + 1) st fs).ok = false →
        (runOp op true (f + 1) st fs).st = st ∧
          (runOp op true (f + 1) st fs).fs = fs) := by
  refine ⟨?_, ?_, ?_⟩
  · rcases runOp_shape op false (f + 1) st fs with h | ⟨st1, h⟩
    · rw [h]
      exact ⟨rfl, Or.inl ⟨rfl, rfl⟩⟩
    · rw [h, saveOrReload_failure f st1 fs md emps hfs]
      exact ⟨rfl, Or.inr ⟨rfl, rfl⟩⟩
  · rcases runOp_shape op true (f + 1) st fs with h | ⟨st1, h⟩
    · rw [h]
      intro hok
      exact Bool.noConfusion hok
    · rw [h, saveOrReload_success]
      intro _
      rfl
  · rcases runOp_shape op true (f + 1) st fs with h | ⟨st1, h⟩
    · rw [h]
      intro _
      exact ⟨rfl, rfl⟩
    · rw [h, saveOrReload_success]
      intro hok
      exact Bool.noConfusion hok

/-- C2 witness: a reset whose save fails, on a filesystem holding a valid
one-record snapshot, reports False and reloads the on-disk snapshot. -/
theorem mutating_ops_transactional_witness :
    ((runOp .reset false 1 st₀ fsG).ok = false ∧
      ((runOp .reset false 1 st₀ fsG).st = st₀ ∧
          (runOp .reset false 1 st₀ fsG).fs = fsG ∨
        (runOp .reset false 1 st₀ fsG).st = stateOfSnapshot md₁ [(1, emp₁)] ∧
          (runOp .reset false 1 st₀ fsG).fs =
            ⟨some (.valid md₁ [(1, emp₁)]), some (.valid md₁ [(1, emp₁)])⟩))
    ∧ ((runOp .reset true 1 st₀ fsG).ok = true →
        (runOp .reset true 1 st₀ fsG).fs.primary =
          some (.valid (generate_metadata (runOp .reset true 1 st₀ fsG).st)
            (runOp .reset true 1 st₀ fsG).st.employees))
    ∧ ((runOp .reset true 1 st₀ fsG).ok = false →
        (runOp .reset true 1 st₀ fsG).st = st₀ ∧
          (runOp .reset true 1 st₀ fsG).fs = fsG) :=
  mutating_ops_transactional .reset 0 st₀ fsG md₁ [(1, emp₁)] rfl

/-- C4: updating the field id, fecha (the birth-date field) or email always
fails with the read-only guard and leaves the state and the persisted file
completely unchanged, whatever the record, the store and the save outcome. -/
theorem modify_read_only_field_no_effect (writeOk : Bool) (fuel id : Nat)
    (fname fvalue : String) (st : DBState) (fs : FS)
    (h : fname = "id" ∨ fname = "fecha" ∨ fname = "email") :
    modify_employee_field writeOk fuel id fname fvalue st fs = ⟨false, st, fs⟩ := by
  have hmem : fname ∈ read_only_fields := by
    rcases h with h | h | h <;> simp [read_only_fields, h]
  unfold modify_employee_field
  rw [if_pos hmem]

/-- C4 witness: updating the birth date of the record present in stCap fails
and changes nothing. -/
theorem modify_read_only_field_no_effect_witness :
    modify_employee_field true 1 1 "fecha" "2000-01-01" stCap fsG =
      ⟨false, stCap, fsG⟩ :=
  modify_read_only_field_no_effect true 1 1 "fecha" "2000-01-01" stCap fsG
    (Or.inr (Or.inl rfl))

/-- C5: add never makes the record count exceed max_employees.  At or above
capacity it fails and changes nothing at all; below capacity the count after
the add stays within the maximum of the resulting state, also on the
save-failure path, provided the last-known-good on-disk snapshot satisfied its
own capacity bound. -/
theorem add_respects_capacity (writeOk : Bool) (f id : Nat) (g : GenInputs)
    (st : DBState) (fs : FS) :
    (st.max_employees ≤ st.employees.length →
      add_employee_with_random_data writeOk (f + 1) id g st fs = ⟨false, st, fs⟩)
    ∧ (∀ md emps, fs.primary = some (.valid md emps) →
        st.employees.length ≤ st.max_employees →
        emps.length ≤ md.max_employees →
        (add_employee_with_random_data writeOk (f + 1) id g st fs).st.employees.length ≤
          (add_employee_with_random_data writeOk (f + 1) id g st fs).st.max_employees) := by
  constructor
  · intro h
    unfold add_employee_with_random_data
    rw [if_pos h]
  · intro md emps hfs hlen hdisk
    by_cases hc : st.max_employees ≤ st.employees.length
    · unfold add_employee_with_random_data
      rw [if_pos hc]
      exact hlen
    · unfold add_employee_with_random_data
      rw [if_neg hc]
      have hins := dictInsert_length st.employees id
        (generate_random_employee_data st id g)
      cases writeOk
      · rw [saveOrReload_failure f _ fs md emps hfs]
        exact hdisk
      · rw [saveOrReload_success]
        show (dictInsert st.employees id
            (generate_random_employee_data st id g)).length ≤ st.max_employees
        omega

/-- C5 witness: on the one-record store at capacity one, the add fails and
changes nothing, and the record count stays within the maximum. -/
theorem add_respects_capacity_witness :
    add_employee_with_random_data true 1 2 g₁ stCap fsG = ⟨false, stCap, fsG⟩
    ∧ (add_employee_with_random_data true 1 2 g₁ stCap fsG).st.employees.length ≤
        (add_employee_with_random_data true 1 2 g₁ stCap fsG).st.max_employees :=
  ⟨(add_respects_capacity true 0 2 g₁ stCap fsG).1 (by decide),
   (add_respects_capacity true 0 2 g₁ stCap fsG).2 md₁ [(1, emp₁)] rfl
     (by decide) (by decide)⟩

/-- C6: the claim says the factory email stays unique among same-name records
by appending the maximal existing numeric suffix plus one.  The code extracts
suffixes by splitting the lower-cased stored emails on the capitalized surname,
finds no occurrence, and therefore always appends suffix 1: generating a third
Jane Doe over the store st₆ (whose records already hold jane.doe@acme.com and
jane.doe1@acme.com) produces jane.doe1@acme.com again, an email an existing
record already holds — the expected max-plus-one email jane.doe2@acme.com is
not produced. -/
theorem generated_email_collides :
    lookupField (generate_random_employee_data st₆ 3 g₁) "email" =
      some "jane.doe1@acme.com"
    ∧ lookupField emp₂ "email" = some "jane.doe1@acme.com"
    ∧ (2, emp₂) ∈ st₆.employees
    ∧ lookupField (generate_random_employee_data st₆ 3 g₁) "email" ≠
        some "jane.doe2@acme.com" := by decide

/-- C7: persistence round-trip.  Saving any snapshot, loading it back and
saving again reproduces the identical document, because every metadata field is
trusted on load except total_employees, which both saves recompute as the
number of records being saved. -/
theorem persistence_roundtrip (md : Metadata) (emps : List (Nat × Employee))
    (st : DBState) (b : Option FileContent) (f : Nat) :
    serializeState
        (load_data (f + 1) st
          ⟨some (serializeState (stateOfSnapshot md emps)), b⟩).st =
      serializeState (stateOfSnapshot md emps)
    ∧ (generate_metadata (stateOfSnapshot md emps)).total_employees = emps.length := by
  exact ⟨rfl, rfl⟩

/-- C8: on a store whose records all carry the department field as an
integer-encoded string, querying department ≥ 5 returns exactly the records
whose department coerced to integer is at least five; and the coercion resolves
an integer string as an integer (never a float), a non-integer numeric string
as a float, true/false case-insensitively as a boolean, and anything else as
the original string. -/
theorem query_department_ge (emps : List (Nat × Employee))
    (h : ∀ p ∈ emps, ∃ d, lookupField p.2 "department" = some d ∧ isIntStr d = true) :
    get_by_field emps "department" ">=" "5" =
      .ok (emps.filter fun p =>
        match lookupField p.2 "department" with
        | some d => decide (5 ≤ parseIntStr d)
        | none => false)
    ∧ (∀ s, isIntStr s = true → cast_str s = .int (parseIntStr s))
    ∧ cast_str "5" = .int 5
    ∧ cast_str "5.5" = .float "5.5"
    ∧ cast_str "True" = .bool true
    ∧ cast_str "hello" = .str "hello" := by
  refine ⟨?_, fun s hs => cast_str_int s hs, by decide, by decide, by decide, by decide⟩
  cases emps with
  | nil => rfl
  | cons p rest =>
      obtain ⟨d, hd, _⟩ := h p (List.mem_cons_self p rest)
      have hany : ((p :: rest).any fun q => (lookupField q.2 "department").isSome) = true := by
        simp [List.any_cons, hd]
      have hq := queryFilter_all_int .ge "department" 5 (p :: rest) h
      show get_by_field (p :: rest) "department" ">=" "5" = _
      unfold get_by_field
      rw [show opOfString ">=" = some .ge from rfl]
      simp only [hany, if_true]
      rw [show cast_str "5" = PyVal.int 5 from rfl, hq]
      rfl

/-- C8 witness: on a two-record store with departments 7 and 3 the query keeps
exactly the first record. -/
theorem query_department_ge_witness :
    get_by_field [(1, [("department", "7")]), (2, [("department", "3")])]
        "department" ">=" "5" =
      .ok [(1, [("department", "7")])] := by
  have h := (query_department_ge
    [(1, [("department", "7")]), (2, [("department", "3")])] (by decide)).1
  rw [h]
  rfl

/-- C9 counterexample: the claim says the normalizer sends Café Müller to
cafmller; the code folds the accented letters to their base letters before
stripping, so the é and ü survive as e and u and the result differs. -/
theorem normalize_cafe_muller_counterexample :
    ¬ (normalize_string "Café Müller" = "cafmller") := by decide

/-- C9 amended: the normalizer folds Café Müller to ASCII as Cafe Muller,
lowercases, and keeps only the letters a-z, yielding cafemuller. -/
theorem normalize_cafe_muller :
    normalize_string "Café Müller" = "cafemuller"
    ∧ unidecode "Café Müller" = "Cafe Muller" := by decide

/-- C10: get_by_field only guards against the queried field being absent from
every record.  On a store where at least one record has the field and at least
one lacks it, the per-record indexing is reached for the record lacking the
field, so the whole query fails with an uncaught error rather than returning a
mapping; when additionally all present values and the query value are integer
strings, that error is precisely the lookup error. -/
theorem query_mixed_presence_errors (emps : List (Nat × Employee))
    (fn v opText : String) (cop : CmpOp) (hop : opOfString opText = some cop)
    (hsome : ∃ p ∈ emps, (lookupField p.2 fn).isSome = true)
    (hnone : ∃ p ∈ emps, lookupField p.2 fn = none) :
    (∃ e, get_by_field emps fn opText v = .error e)
    ∧ ((∀ p ∈ emps, ∀ d, lookupField p.2 fn = some d → isIntStr d = true) →
        isIntStr v = true →
        get_by_field emps fn opText v = .error .keyError) := by
  have hany : (emps.any fun p => (lookupField p.2 fn).isSome) = true := by
    obtain ⟨p, hp, hps⟩ := hsome
    exact List.any_eq_true.mpr ⟨p, hp, hps⟩
  constructor
  · obtain ⟨e, he⟩ := queryFilter_missing cop fn (cast_str v) emps hnone
    refine ⟨e, ?_⟩
    unfold get_by_field
    rw [hop]
    simp only [hany, if_true]
    exact he
  · intro hall hv
    unfold get_by_field
    rw [hop]
    simp only [hany, if_true]
    rw [cast_str_int v hv]
    exact queryFilter_missing_int cop fn (parseIntStr v) emps hnone hall

/-- C10 witness: querying department on a store where one record has the field
and another does not raises the lookup error. -/
theorem query_mixed_presence_errors_witness :
    get_by_field [(1, [("department", "7")]), (2, [("x", "y")])]
        "department" "==" "5" = .error .keyError :=
  (query_mixed_presence_errors [(1, [("department", "7")]), (2, [("x", "y")])]
    "department" "5" "==" .eq rfl (by decide) (by decide)).2 (by decide) (by decide)

end EmployeeDatabase
